import Mathlib

/-
Verification of the offset-tracking PDF writer (src/lib.rs).

The Rust code is embedded shallowly: the output stream is a list of byte
values, `Writer` is its pair of sink and running offset, and
`Document::write` is transcribed line for line, threading an explicit
state. Appends can fail: a sink behaviour function decides, per attempted
append, whether the sink accepts the buffer or rejects it with an error
after storing some prefix. The direct `std::write!(writer.stream, ...)`
calls of the source (the xref entry lines and the startxref offset line)
are modelled by `rawWrite`, which appends to the sink without advancing
the writer's offset, exactly as the source does.
-/

set_option maxRecDepth 100000
set_option maxHeartbeats 1000000

namespace Pdf

/-- An I/O error, abstracted to an error code. -/
structure IoError where
  code : Nat
deriving DecidableEq

/-- Response of the underlying byte sink to one attempted append: it
either accepts the whole buffer, or rejects with an error after having
stored some prefix of the bytes. -/
inductive SinkResp where
  | accept : SinkResp
  | reject (written : List Nat) (e : IoError) : SinkResp
deriving DecidableEq

/-- Bytes of an ASCII string. -/
def bytes (s : String) : List Nat := s.data.map Char.toNat

/-- The offset-tracking writer (`Writer` in the source): the sink's
accumulated bytes and the running byte offset. -/
structure Writer where
  sink : List Nat
  offset : Nat
deriving DecidableEq

/-- `Writer::new`: wraps a stream, whatever bytes it already holds, with
offset 0. -/
def Writer.new (sink : List Nat) : Writer := ⟨sink, 0⟩

/-- `Writer::write`: appends the buffer to the sink; the offset advances
by the buffer length only when the append fully succeeds. On rejection
the sink keeps whatever prefix it stored and the offset is unchanged. -/
def Writer.write (w : Writer) (buf : List Nat) : SinkResp → Except (IoError × Writer) Writer
  | SinkResp.accept => Except.ok ⟨w.sink ++ buf, w.offset + buf.length⟩
  | SinkResp.reject written e => Except.error (e, ⟨w.sink ++ written, w.offset⟩)

/-- `Writer::pos`: the current offset. -/
def Writer.pos (w : Writer) : Nat := w.offset

/-- A sequence of `Writer::write` calls on an all-accepting sink,
stopping at the first error. -/
def Writer.writeSeq (w : Writer) : List (List Nat) → Except (IoError × Writer) Writer
  | [] => Except.ok w
  | b :: bs =>
    match w.write b SinkResp.accept with
    | Except.ok w2 => w2.writeSeq bs
    | Except.error ew => Except.error ew

/-- State threaded through `Document::write`: the writer, the count of
bytes present in the sink that the writer's offset does not account for
(bytes of the direct stream writes, and prefixes kept by failed appends),
and the number of appends attempted so far, which indexes the sink
behaviour. -/
structure WState where
  w : Writer
  raw : Nat
  calls : Nat
deriving DecidableEq

/-- One append through `Writer::write` (a `writer.write(...)?` line of
the source). -/
def wwrite (beh : Nat → SinkResp) (buf : List Nat) (s : WState) :
    Except (IoError × WState) WState :=
  match Writer.write s.w buf (beh s.calls) with
  | Except.ok w2 => Except.ok ⟨w2, s.raw, s.calls + 1⟩
  | Except.error (e, w2) =>
      Except.error (e, ⟨w2, s.raw + (w2.sink.length - s.w.sink.length), s.calls + 1⟩)

/-- One append written directly to the underlying stream, bypassing the
writer (a `std::write!(writer.stream, ...)?` line of the source): the
offset is not advanced. -/
def rawWrite (beh : Nat → SinkResp) (buf : List Nat) (s : WState) :
    Except (IoError × WState) WState :=
  match beh s.calls with
  | SinkResp.accept =>
      Except.ok ⟨⟨s.w.sink ++ buf, s.w.offset⟩, s.raw + buf.length, s.calls + 1⟩
  | SinkResp.reject written e =>
      Except.error (e, ⟨⟨s.w.sink ++ written, s.w.offset⟩, s.raw + written.length, s.calls + 1⟩)

/-- Decimal digits of a number, as bytes (the plain Rust decimal format). -/
def decDigits (n : Nat) : List Nat := (Nat.toDigits 10 n).map Char.toNat

/-- Decimal digits zero-padded on the left with byte 48 to width 10 (the
Rust zero-pad-to-10 format used for xref entries). -/
def pad10 (n : Nat) : List Nat :=
  List.replicate (10 - (decDigits n).length) 48 ++ decDigits n

/-- The positions recorded by the local variables of `Document::write`,
each captured from `writer.pos()` before the bytes of the corresponding
object (or of the xref section) are emitted. -/
structure DocPositions where
  catalog_pos : Nat
  page_tree_pos : Nat
  page1_pos : Nat
  page1_contents_pos : Nat
  font_pos : Nat
  xref_pos : Nat
deriving DecidableEq

/-- `pub struct Document;` carries no data. -/
structure Document where
deriving DecidableEq

/-- `Document::write`, transcribed line for line from the source. -/
def Document.write (_d : Document) (beh : Nat → SinkResp) (s : WState) :
    Except (IoError × WState) (WState × DocPositions) := do
  let s ← wwrite beh (bytes "%PDF-1.7\n") s
  let s ← wwrite beh ([0x25, 0x80, 0x81, 0x82, 0x83, 0x0a]) s
  let catalog_pos := s.w.pos
  let s ← wwrite beh (bytes "1 0 obj\n") s
  let s ← wwrite beh (bytes "<<\n") s
  let s ← wwrite beh (bytes "/Type /Catalog\n") s
  let s ← wwrite beh (bytes "/Pages 2 0 R\n") s
  let s ← wwrite beh (bytes ">>\n") s
  let s ← wwrite beh (bytes "endobj\n") s
  let page_tree_pos := s.w.pos
  let s ← wwrite beh (bytes "2 0 obj\n") s
  let s ← wwrite beh (bytes "<<\n") s
  let s ← wwrite beh (bytes "/Type /Pages\n") s
  let s ← wwrite beh (bytes "/Kids [3 0 R]\n") s
  let s ← wwrite beh (bytes "/Count 1\n") s
  let s ← wwrite beh (bytes ">>\n") s
  let s ← wwrite beh (bytes "endobj\n") s
  let page1_pos := s.w.pos
  let s ← wwrite beh (bytes "3 0 obj\n") s
  let s ← wwrite beh (bytes "<<\n") s
  let s ← wwrite beh (bytes "/Type /Page\n") s
  let s ← wwrite beh (bytes "/Parent 2 0 R\n") s
  let s ← wwrite beh (bytes "/MediaBox [0.0 0.0 612.0 792.0]\n") s
  let s ← wwrite beh (bytes "/Contents 4 0 R\n") s
  let s ← wwrite beh (bytes "/Resources << /Font << /F13 5 0 R >> >>\n") s
  let s ← wwrite beh (bytes ">>\n") s
  let s ← wwrite beh (bytes "endobj\n") s
  let page1_contents_pos := s.w.pos
  let s ← wwrite beh (bytes "4 0 obj\n") s
  let s ← wwrite beh (bytes "<<\n") s
  let s ← wwrite beh (bytes "/Length 39\n") s
  let s ← wwrite beh (bytes ">>\n") s
  let s ← wwrite beh (bytes "stream\n") s
  let s ← wwrite beh (bytes "BT\n") s
  let s ← wwrite beh (bytes "/F13 10 Tf\n") s
  let s ← wwrite beh (bytes "12 775 Td\n") s
  let s ← wwrite beh (bytes "(Hello!) Tj\n") s
  let s ← wwrite beh (bytes "ET\n") s
  let s ← wwrite beh (bytes "endstream\n") s
  let s ← wwrite beh (bytes "endobj\n") s
  let font_pos := s.w.pos
  let s ← wwrite beh (bytes "5 0 obj\n") s
  let s ← wwrite beh (bytes "<<\n") s
  let s ← wwrite beh (bytes "/Type /Font\n") s
  let s ← wwrite beh (bytes "/Subtype /Type1\n") s
  let s ← wwrite beh (bytes "/Name /F13\n") s
  let s ← wwrite beh (bytes "/BaseFont /Times-Roman\n") s
  let s ← wwrite beh (bytes "/Encoding /MacRomanEncoding\n") s
  let s ← wwrite beh (bytes ">>\n") s
  let s ← wwrite beh (bytes "endobj\n") s
  let xref_pos := s.w.pos
  let s ← wwrite beh (bytes "xref\n") s
  let s ← wwrite beh (bytes "0 6\n") s
  let s ← rawWrite beh (bytes "0000000000 65535 f\r\n") s
  let s ← rawWrite beh (pad10 catalog_pos ++ bytes " 00000 n\r\n") s
  let s ← rawWrite beh (pad10 page_tree_pos ++ bytes " 00000 n\r\n") s
  let s ← rawWrite beh (pad10 page1_pos ++ bytes " 00000 n\r\n") s
  let s ← rawWrite beh (pad10 page1_contents_pos ++ bytes " 00000 n\r\n") s
  let s ← rawWrite beh (pad10 font_pos ++ bytes " 00000 n\r\n") s
  let s ← wwrite beh (bytes "trailer\n") s
  let s ← wwrite beh (bytes "<<\n") s
  let s ← wwrite beh (bytes "/Size 6\n") s
  let s ← wwrite beh (bytes "/Root 1 0 R\n") s
  let s ← wwrite beh (bytes ">>\n") s
  let s ← wwrite beh (bytes "startxref\n") s
  let s ← rawWrite beh (decDigits xref_pos ++ bytes "\n") s
  let s ← wwrite beh (bytes "%%EOF\n") s
  return (s, ⟨catalog_pos, page_tree_pos, page1_pos, page1_contents_pos, font_pos, xref_pos⟩)

/-- The sink behaviour that accepts every append. -/
def allAccept : Nat → SinkResp := fun _ => SinkResp.accept

/-- The sink behaviour that accepts every append except the one at index
`cap`, which it rejects cleanly (storing no bytes) with error `e`. -/
def failAt (cap : Nat) (e : IoError) : Nat → SinkResp :=
  fun i => if i = cap then SinkResp.reject [] e else SinkResp.accept

/-- A fresh writer on an empty sink. -/
def initState : WState := ⟨Writer.new [], 0, 0⟩

/-- The run of `Document::write` on a fresh writer over an all-accepting
sink. -/
def docRun : Except (IoError × WState) (WState × DocPositions) :=
  Document.write ⟨⟩ allAccept initState

/-- Whether the all-accepting run succeeds. -/
def docOk : Bool :=
  match docRun with
  | Except.ok _ => true
  | Except.error _ => false

/-- Final state of the all-accepting run. -/
def docFinal : WState :=
  match docRun with
  | Except.ok (s, _) => s
  | Except.error _ => initState

/-- Positions recorded during the all-accepting run. -/
def docPos : DocPositions :=
  match docRun with
  | Except.ok (_, p) => p
  | Except.error _ => ⟨0, 0, 0, 0, 0, 0⟩

/-- The byte sequence produced by the all-accepting run. -/
def pdfOut : List Nat := docFinal.w.sink

/-- Whether `pat` is an initial segment of `l`. -/
def listPre : List Nat → List Nat → Bool
  | [], _ => true
  | _ :: _, [] => false
  | a :: as, b :: bs => a == b && listPre as bs

/-- Index of the first occurrence of `pat` as a contiguous segment of
`l`, if any. -/
def findSub (pat : List Nat) : List Nat → Option Nat
  | [] => if listPre pat [] then some 0 else none
  | a :: rest =>
    if listPre pat (a :: rest) then some 0
    else (findSub pat rest).map (fun i => i + 1)

/-- Value of the leading run of decimal digit bytes. -/
def parseNat (l : List Nat) : Nat :=
  (l.takeWhile (fun b => Nat.ble 48 b && Nat.ble b 57)).foldl
    (fun a b => a * 10 + (b - 48)) 0

/-- The integer on the line after the first `startxref` line of `out`. -/
def startxrefValue (out : List Nat) : Option Nat :=
  (findSub (bytes "startxref\n") out).map (fun i => parseNat (out.drop (i + 10)))

/-- The integer after the first `/Length ` of `out`. -/
def lengthValue (out : List Nat) : Option Nat :=
  (findSub (bytes "/Length ") out).map (fun i => parseNat (out.drop (i + 8)))

/-- The integer after the first `/Size ` of `out`. -/
def sizeValue (out : List Nat) : Option Nat :=
  (findSub (bytes "/Size ") out).map (fun i => parseNat (out.drop (i + 6)))

/-- The free-list head entry of the xref table. -/
def freeEntry : List Nat := bytes "0000000000 65535 f\r\n"

/-- An in-use xref entry for a recorded byte offset. -/
def usedEntry (off : Nat) : List Nat := pad10 off ++ bytes " 00000 n\r\n"

/-- The six xref entries generated from the recorded positions. -/
def xrefEntries (p : DocPositions) : List (List Nat) :=
  [freeEntry, usedEntry p.catalog_pos, usedEntry p.page_tree_pos,
   usedEntry p.page1_pos, usedEntry p.page1_contents_pos, usedEntry p.font_pos]

/-- A sequence of accepted `Writer::write` calls succeeds, appends the
concatenation of the buffers, and advances the offset by the sum of the
buffer lengths. -/
theorem writeSeq_accept (bufs : List (List Nat)) : ∀ w : Writer,
    w.writeSeq bufs =
      Except.ok ⟨w.sink ++ bufs.flatten, w.offset + (bufs.map List.length).sum⟩ := by
  induction bufs with
  | nil => intro w; simp [Writer.writeSeq]
  | cons b bs ih =>
      intro w
      simp [Writer.writeSeq, Writer.write, ih, List.append_assoc, Nat.add_assoc]

/-- Claim C1: for every Writer created by `Writer::new` (offset starting
at 0) and every sequence of `write` calls that all succeed, `pos()` after
the sequence equals the sum of the byte lengths of all buffers passed to
those calls. -/
theorem writer_pos_eq_sum_of_lengths (sink0 : List Nat) (bufs : List (List Nat)) :
    ∃ w2, (Writer.new sink0).writeSeq bufs = Except.ok w2 ∧
      w2.pos = (bufs.map List.length).sum := by
  refine ⟨_, writeSeq_accept bufs (Writer.new sink0), ?_⟩
  simp [Writer.pos, Writer.new]

/-- Claim C6: a rejected `Writer::write` call leaves the offset unchanged
(`pos()` returns the value it had before the call) and returns the sink's
error to the caller. -/
theorem writer_write_reject_keeps_pos (w : Writer) (buf written : List Nat) (e : IoError) :
    ∃ w2, w.write buf (SinkResp.reject written e) = Except.error (e, w2) ∧
      w2.pos = w.pos :=
  ⟨⟨w.sink ++ written, w.offset⟩, rfl, rfl⟩

/-- Claim C2, counterexample: after the successful `Document::write` run
on a fresh Writer over an all-accepting sink, `pos()` does not equal the
number of bytes appended to the sink (514 against 638): the xref entry
lines and the startxref offset line go to the stream directly, bypassing
the Writer. -/
theorem doc_pos_ne_sink_length :
    docOk = true ∧ ¬ (docFinal.w.pos = docFinal.w.sink.length) := by decide

/-- Claim C2, amended: every byte appended during `Document::write`
passes through `Writer::write` except the six xref entry lines and the
startxref offset line, 124 bytes in all, written directly to the stream;
after a successful run on a fresh Writer, `pos()` equals the total bytes
appended to the sink minus those 124 directly written bytes. -/
theorem doc_pos_accounts_writer_bytes :
    docOk = true ∧ docFinal.w.pos + docFinal.raw = docFinal.w.sink.length ∧
      docFinal.raw = 124 := by decide

/-- Claim C3: in the produced byte sequence, the integer on the line
after `startxref` equals the recorded xref position, which is exactly the
offset of the first occurrence of the bytes of `xref` plus newline — the
start of the xref section. -/
theorem startxref_matches_xref_offset :
    startxrefValue pdfOut = some docPos.xref_pos ∧
      findSub (bytes "xref\n") pdfOut = some docPos.xref_pos := by decide

/-- Claim C4: the xref section consists, after its two header lines
(9 bytes), of exactly 6 entries of 20 bytes each (120 bytes, followed
immediately by the trailer); entry 0 is the fixed free entry, and entry k
for k = 1..5 holds the position recorded for object k before that
object's bytes were emitted, as 10 zero-padded digits with generation
00000 and flag n. -/
theorem xref_table_exact :
    docOk = true ∧
    (pdfOut.drop (docPos.xref_pos + 9)).take 120 = (xrefEntries docPos).flatten ∧
    (xrefEntries docPos).length = 6 ∧
    (∀ e ∈ xrefEntries docPos, e.length = 20) ∧
    (xrefEntries docPos).head? = some (bytes "0000000000 65535 f\r\n") ∧
    (pdfOut.drop (docPos.xref_pos + 9 + 120)).take 8 = bytes "trailer\n" := by decide

/-- Claim C5: the integer emitted after `/Length` equals the byte count
of the payload lying strictly between the stream marker line (7 bytes)
and the first occurrence of `endstream`: the declared length 39 equals
the distance from the end of the marker to `endstream`. -/
theorem stream_length_exact :
    lengthValue pdfOut = some 39 ∧
    findSub (bytes "endstream") pdfOut =
      (findSub (bytes "stream\n") pdfOut).map (fun i => i + 7 + 39) := by decide

/-- Claim C7: the emitted trailer is exactly the dictionary with
`/Size 6` (the 5 objects plus 1) and `/Root 1 0 R`, and the first `/Size`
value in the output parses to 6. -/
theorem trailer_exact :
    (findSub (bytes "trailer\n<<\n/Size 6\n/Root 1 0 R\n>>\n") pdfOut).isSome = true ∧
    sizeValue pdfOut = some 6 := by decide

/-- Claim C8: the output begins with the header line `%PDF-1.7` plus
newline, followed immediately by a comment line made of a percent byte,
four bytes with value at least 0x80, and a newline; all five recorded
object positions lie at or after byte 15, so the two-line header precedes
every object. -/
theorem header_exact :
    pdfOut.take 15 = bytes "%PDF-1.7\n" ++ [0x25, 0x80, 0x81, 0x82, 0x83, 0x0a] ∧
    ((pdfOut.drop 10).take 4).all (fun b => Nat.ble 128 b) = true ∧
    docPos.catalog_pos = 15 ∧
    (∀ p ∈ [docPos.catalog_pos, docPos.page_tree_pos, docPos.page1_pos,
            docPos.page1_contents_pos, docPos.font_pos], 15 ≤ p) := by decide

/-- Claim C9: if the sink rejects the append at any index `cap` among
the 61 appends performed by `Document::write`, the whole operation aborts
there, returning exactly the sink's error, and in the final state the
writer's offset accounts exactly for the sink's bytes minus those that
bypassed it. -/
theorem doc_write_propagates_failure (cap : Nat) (e : IoError) (h : cap < 61) :
    ∃ s, Document.write ⟨⟩ (failAt cap e) initState = Except.error (e, s) ∧
      s.w.pos + s.raw = s.w.sink.length := by
  interval_cases cap <;> exact ⟨_, rfl, by decide⟩

/-- Witness for claim C9 at the first append with error code 7. -/
theorem doc_write_propagates_failure_witness :
    (0 : Nat) < 61 ∧
    ∃ s, Document.write ⟨⟩ (failAt 0 ⟨7⟩) initState = Except.error (⟨7⟩, s) ∧
      s.w.pos + s.raw = s.w.sink.length :=
  ⟨by decide, doc_write_propagates_failure 0 ⟨7⟩ (by decide)⟩

/-- Claim C10: `Document::write` is deterministic — any two runs over
sinks that accept all appends, whatever the Document values, produce the
same result, namely the successful canonical run with its single byte
sequence. -/
theorem doc_write_deterministic (d₁ d₂ : Document) (beh₁ beh₂ : Nat → SinkResp)
    (h₁ : ∀ i, beh₁ i = SinkResp.accept) (h₂ : ∀ i, beh₂ i = SinkResp.accept) :
    Document.write d₁ beh₁ initState = Document.write d₂ beh₂ initState ∧
    Document.write d₁ beh₁ initState = Except.ok (docFinal, docPos) := by
  have e₁ : beh₁ = allAccept := funext h₁
  have e₂ : beh₂ = allAccept := funext h₂
  cases d₁
  cases d₂
  rw [e₁, e₂]
  exact ⟨rfl, rfl⟩

/-- Witness for claim C10 on the all-accepting behaviour. -/
theorem doc_write_deterministic_witness :
    Document.write ⟨⟩ allAccept initState = Document.write ⟨⟩ allAccept initState ∧
    Document.write ⟨⟩ allAccept initState = Except.ok (docFinal, docPos) :=
  doc_write_deterministic ⟨⟩ ⟨⟩ allAccept allAccept (fun _ => rfl) (fun _ => rfl)

end Pdf
